import Mathlib

/-!
A verification development for the collections-query service: a shallow
embedding of its typed filter compiler, value materializer and
query/pagination layer, together with theorems settling the specification
claims about them.

The embedding mirrors the source modules:
- `src/schema/objects/collection.rs` (filter compiler, `list_entries`)
- `src/schema/objects/entries.rs` (value materializer)
- `src/schema/query.rs` (collection pagination)

Storage is modelled as in-memory lists of rows (one list per value table);
the SQL query built by the source is modelled as compilation to a list of
predicate fragments (`Pred`) whose conjunction is evaluated over the rows,
matching the SQL semantics of the inner joins, filters and EXISTS
subqueries the source emits.
-/

namespace CollectionsQuery

/-- Decidable equality of fallible results, so that concrete runs of
the compiler can be checked by evaluation. -/
instance {ε α : Type} [DecidableEq ε] [DecidableEq α] : DecidableEq (Except ε α) := fun x y =>
  match x, y with
  | .ok a, .ok b =>
    if h : a = b then .isTrue (by rw [h]) else .isFalse (fun hc => h (Except.ok.inj hc))
  | .error a, .error b =>
    if h : a = b then .isTrue (by rw [h]) else .isFalse (fun hc => h (Except.error.inj hc))
  | .ok _, .error _ => .isFalse (fun hc => Except.noConfusion hc)
  | .error _, .ok _ => .isFalse (fun hc => Except.noConfusion hc)

/-- Entity identifiers (`uuid::Uuid`), modelled as naturals. -/
abbrev Uuid := Nat

/-- Modelled from the spec: the `entities` crate's `DataTypes` enum
(spec section 3); the crate itself is not under `src/`. -/
inductive DataTypes
  | text
  | typstText
  | boolean
  | number
  | dateTime
  | textList
  | numberList
  | relation
  | object
deriving DecidableEq

/-- `Field` from `collection.rs`; `created_at` timestamps are naturals. -/
structure Field where
  id : Uuid
  collection_id : Uuid
  name : String
  data_type : DataTypes
  created_at : Nat
deriving DecidableEq

/-- `Entry` from `entries.rs`. -/
structure Entry where
  id : Uuid
  created_at : Nat
  collection_id : Uuid
  created_by : Uuid
  name : String
deriving DecidableEq

/-- `Collection` from `collection.rs`. -/
structure Collection where
  id : Uuid
  name : String
  created_at : Nat
  created_by : Uuid
deriving DecidableEq

/-- Modelled from the spec: a row of `entry_text_values` (spec section 3:
Text payload is an optional string). -/
structure EntryTextValue where
  entry_id : Uuid
  field_id : Uuid
  value : Option String
deriving DecidableEq

/-- Modelled from the spec: a row of `entry_typst_text_values`
(raw string plus rendered string). -/
structure EntryTypstTextValue where
  entry_id : Uuid
  field_id : Uuid
  raw : String
  rendered : String
deriving DecidableEq

/-- Modelled from the spec: a row of `entry_boolean_values`. -/
structure EntryBooleanValue where
  entry_id : Uuid
  field_id : Uuid
  value : Option Bool
deriving DecidableEq

/-- Modelled from the spec: a row of `entry_number_values`; the 64-bit
float payload is modelled as a rational. -/
structure EntryNumberValue where
  entry_id : Uuid
  field_id : Uuid
  value : Option Rat
deriving DecidableEq

/-- Modelled from the spec: a row of `entry_date_time_values`; the
timestamp payload is modelled as its ISO-8601 string, compared as-is
(spec section 4.2: the store is trusted to compare compatibly). -/
structure EntryDateTimeValue where
  entry_id : Uuid
  field_id : Uuid
  value : Option String
deriving DecidableEq

/-- Modelled from the spec: a row of `entry_text_list_values`
(payload possibly absent as a whole). -/
structure EntryTextListValue where
  entry_id : Uuid
  field_id : Uuid
  value : Option (List String)
deriving DecidableEq

/-- Modelled from the spec: a row of `entry_number_list_values`. -/
structure EntryNumberListValue where
  entry_id : Uuid
  field_id : Uuid
  value : Option (List Rat)
deriving DecidableEq

/-- Modelled from the spec: a row of `entry_relation_values`, a directed
edge (from_entry_id, field_id, to_entry_id). -/
structure EntryRelationValue where
  from_entry_id : Uuid
  field_id : Uuid
  to_entry_id : Uuid
deriving DecidableEq

/-- Modelled from the spec: a row of `entry_object_values`; the opaque
JSON payload is modelled as an optional string (`none` is a null
payload). -/
structure EntryObjectValue where
  entry_id : Uuid
  field_id : Uuid
  value : Option String
deriving DecidableEq

/-- Modelled from the spec: a row of the `collections` table. -/
structure CollectionRow where
  id : Uuid
  name : String
  created_at : Nat
  created_by : Uuid
deriving DecidableEq

/-- The storage capability: one list of rows per table. -/
structure DB where
  collections : List CollectionRow
  entries : List Entry
  fields : List Field
  textValues : List EntryTextValue
  typstTextValues : List EntryTypstTextValue
  booleanValues : List EntryBooleanValue
  numberValues : List EntryNumberValue
  dateTimeValues : List EntryDateTimeValue
  textListValues : List EntryTextListValue
  numberListValues : List EntryNumberListValue
  relationValues : List EntryRelationValue
  objectValues : List EntryObjectValue
deriving DecidableEq

/-- `TextComparison` from `collection.rs`. -/
inductive TextComparison
  | eq
  | neq
  | contains
  | startsWith
  | endsWith
deriving DecidableEq

/-- `NumberComparison` from `collection.rs`. -/
inductive NumberComparison
  | eq
  | neq
  | gt
  | gte
  | lt
  | lte
deriving DecidableEq

/-- `BooleanComparison` from `collection.rs`. -/
inductive BooleanComparison
  | eq
  | neq
deriving DecidableEq

/-- `DateTimeComparison` from `collection.rs`. -/
inductive DateTimeComparison
  | eq
  | neq
  | gt
  | gte
  | lt
  | lte
deriving DecidableEq

/-- `ListComparison` from `collection.rs`. -/
inductive ListComparison
  | contains
  | containsAll
  | containsAny
  | isEmpty
  | isNotEmpty
deriving DecidableEq

/-- `RelationComparison` from `collection.rs`. -/
inductive RelationComparison
  | connectedTo
  | notConnectedTo
  | hasConnections
  | hasNoConnections
deriving DecidableEq

/-- `ObjectComparison` from `collection.rs`. -/
inductive ObjectComparison
  | hasProperty
  | propertyEquals
  | propertyContains
  | isEmpty
  | isNotEmpty
deriving DecidableEq

/-- `TextFilter` from `collection.rs`. -/
structure TextFilter where
  field_name : String
  comparison : TextComparison
  value : String
deriving DecidableEq

/-- `NumberFilter` from `collection.rs`. -/
structure NumberFilter where
  field_name : String
  comparison : NumberComparison
  value : Rat
deriving DecidableEq

/-- `BooleanFilter` from `collection.rs`. -/
structure BooleanFilter where
  field_name : String
  comparison : BooleanComparison
  value : Bool
deriving DecidableEq

/-- `DateTimeFilter` from `collection.rs` (ISO 8601 string operand). -/
structure DateTimeFilter where
  field_name : String
  comparison : DateTimeComparison
  value : String
deriving DecidableEq

/-- `ListFilter` from `collection.rs`. -/
structure ListFilter where
  field_name : String
  comparison : ListComparison
  values : Option (List String)
deriving DecidableEq

/-- `RelationFilter` from `collection.rs` (target id is a string to be
parsed as a UUID). -/
structure RelationFilter where
  field_name : String
  comparison : RelationComparison
  target_entry_id : Option String
deriving DecidableEq

/-- `ObjectFilter` from `collection.rs`. -/
structure ObjectFilter where
  field_name : String
  comparison : ObjectComparison
  property_path : Option String
  property_value : Option String
deriving DecidableEq

/-- `EntryFilters` from `collection.rs`: seven optional sequences. -/
structure EntryFilters where
  text_filters : Option (List TextFilter)
  number_filters : Option (List NumberFilter)
  boolean_filters : Option (List BooleanFilter)
  date_time_filters : Option (List DateTimeFilter)
  list_filters : Option (List ListFilter)
  relation_filters : Option (List RelationFilter)
  object_filters : Option (List ObjectFilter)
deriving DecidableEq

/-- `EntryOrderBy` from `collection.rs`. -/
inductive EntryOrderBy
  | asc
  | desc
deriving DecidableEq

/-- The validation/compilation error taxonomy (spec section 7); the
source raises these as `juniper::FieldError` messages and this embedding
keeps the message payloads that identify the offending input. -/
inductive FilterError
  | fieldNotFound (name : String)
  | fieldTypeMismatch (name : String) (actual : DataTypes) (expected : List DataTypes)
  | invalidOperand (value : String)
  | missingRequiredOperand (msg : String)
  | unsupportedComparison (msg : String)
deriving DecidableEq

/-- `validate_field` from `collection.rs`: exact-name lookup, then a
membership check of the field's data type in the allowed set. -/
def validate_field (fields : List Field) (field_name : String)
    (expected_types : List DataTypes) : Except FilterError Field :=
  match fields.find? (fun f => f.name == field_name) with
  | none => .error (.fieldNotFound field_name)
  | some field =>
    if expected_types.contains field.data_type then
      .ok field
    else
      .error (.fieldTypeMismatch field_name field.data_type expected_types)

/-- Value-column condition of a compiled text predicate. -/
inductive TextCond
  | eq (v : String)
  | neq (v : String)
  | like (pattern : String)
deriving DecidableEq

/-- Value-column condition of a compiled number predicate. -/
inductive NumCond
  | eq (v : Rat)
  | neq (v : Rat)
  | gt (v : Rat)
  | gte (v : Rat)
  | lt (v : Rat)
  | lte (v : Rat)
deriving DecidableEq

/-- Value-column condition of a compiled boolean predicate. -/
inductive BoolCond
  | eq (v : Bool)
  | neq (v : Bool)
deriving DecidableEq

/-- Value-column condition of a compiled date-time predicate. -/
inductive DtCond
  | eq (v : String)
  | neq (v : String)
  | gt (v : String)
  | gte (v : String)
  | lt (v : String)
  | lte (v : String)
deriving DecidableEq

/-- Value-column condition of a compiled list predicate. -/
inductive ListCond
  | like (pattern : String)
  | isNull
  | isNotNull
deriving DecidableEq

/-- Compiled relation predicate: the EXISTS / NOT EXISTS subqueries the
source emits in `apply_relation_filter`. -/
inductive RelCond
  | existsTo (target : Uuid)
  | notExistsTo (target : Uuid)
  | existsAny
  | notExistsAny
deriving DecidableEq

/-- Value-column condition of a compiled object predicate. -/
inductive ObjCond
  | isNull
  | isNotNull
deriving DecidableEq

/-- One compiled filter fragment. Every constructor except `relationP`
stands for an inner join of the entries table to the named value table
plus a filter `field_id = fid` plus the given value condition, exactly
as the corresponding `apply_*_filter` emits; `relationP` stands for the
EXISTS / NOT EXISTS subquery against the relation table. -/
inductive Pred
  | textP (fid : Uuid) (cond : TextCond)
  | numberP (fid : Uuid) (cond : NumCond)
  | booleanP (fid : Uuid) (cond : BoolCond)
  | dateTimeP (fid : Uuid) (cond : DtCond)
  | textListP (fid : Uuid) (cond : Option ListCond)
  | numberListP (fid : Uuid) (cond : ListCond)
  | objectP (fid : Uuid) (cond : ObjCond)
  | relationP (fid : Uuid) (cond : RelCond)
deriving DecidableEq

/-- `apply_text_filter` from `collection.rs`: both Text and TypstText
fields are accepted, and the predicate always targets the
`entry_text_values` table ("Both Text and TypstText use the same table"
in the source). Pattern operands are built by plain string
concatenation, inserting the user value verbatim. -/
def apply_text_filter (fields : List Field) (filter : TextFilter) :
    Except FilterError Pred := do
  let field ← validate_field fields filter.field_name [.text, .typstText]
  match filter.comparison with
  | .eq => .ok (.textP field.id (.eq filter.value))
  | .neq => .ok (.textP field.id (.neq filter.value))
  | .contains => .ok (.textP field.id (.like ("%" ++ filter.value ++ "%")))
  | .startsWith => .ok (.textP field.id (.like (filter.value ++ "%")))
  | .endsWith => .ok (.textP field.id (.like ("%" ++ filter.value)))

/-- `apply_number_filter` from `collection.rs`. -/
def apply_number_filter (fields : List Field) (filter : NumberFilter) :
    Except FilterError Pred := do
  let field ← validate_field fields filter.field_name [.number]
  match filter.comparison with
  | .eq => .ok (.numberP field.id (.eq filter.value))
  | .neq => .ok (.numberP field.id (.neq filter.value))
  | .gt => .ok (.numberP field.id (.gt filter.value))
  | .gte => .ok (.numberP field.id (.gte filter.value))
  | .lt => .ok (.numberP field.id (.lt filter.value))
  | .lte => .ok (.numberP field.id (.lte filter.value))

/-- `apply_boolean_filter` from `collection.rs`. -/
def apply_boolean_filter (fields : List Field) (filter : BooleanFilter) :
    Except FilterError Pred := do
  let field ← validate_field fields filter.field_name [.boolean]
  match filter.comparison with
  | .eq => .ok (.booleanP field.id (.eq filter.value))
  | .neq => .ok (.booleanP field.id (.neq filter.value))

/-- `apply_datetime_filter` from `collection.rs`: the literal ISO-8601
string is compared as-is. -/
def apply_datetime_filter (fields : List Field) (filter : DateTimeFilter) :
    Except FilterError Pred := do
  let field ← validate_field fields filter.field_name [.dateTime]
  match filter.comparison with
  | .eq => .ok (.dateTimeP field.id (.eq filter.value))
  | .neq => .ok (.dateTimeP field.id (.neq filter.value))
  | .gt => .ok (.dateTimeP field.id (.gt filter.value))
  | .gte => .ok (.dateTimeP field.id (.gte filter.value))
  | .lt => .ok (.dateTimeP field.id (.lt filter.value))
  | .lte => .ok (.dateTimeP field.id (.lte filter.value))

/-- `apply_list_filter` from `collection.rs`. For a TextList field,
`Contains` uses only the first element of the supplied values (if the
values are absent or empty, no value condition is added at all); for a
NumberList field `Contains`, `ContainsAll` and `ContainsAny` fail. The
final wildcard branch corresponds to the source's `unreachable!()`
(`validate_field` guarantees the data type is TextList or NumberList)
and is modelled as the type-mismatch error. -/
def apply_list_filter (fields : List Field) (filter : ListFilter) :
    Except FilterError Pred := do
  let field ← validate_field fields filter.field_name [.textList, .numberList]
  match field.data_type with
  | .textList =>
    match filter.comparison with
    | .contains =>
      match filter.values with
      | some values =>
        match values.head? with
        | some value => .ok (.textListP field.id (some (.like ("%" ++ value ++ "%"))))
        | none => .ok (.textListP field.id none)
      | none => .ok (.textListP field.id none)
    | .isEmpty => .ok (.textListP field.id (some .isNull))
    | .isNotEmpty => .ok (.textListP field.id (some .isNotNull))
    | _ => .error (.unsupportedComparison
        "ContainsAll and ContainsAny not yet implemented for lists")
  | .numberList =>
    match filter.comparison with
    | .isEmpty => .ok (.numberListP field.id .isNull)
    | .isNotEmpty => .ok (.numberListP field.id .isNotNull)
    | _ => .error (.unsupportedComparison
        "Complex list operations not yet implemented for number lists")
  | dt => .error (.fieldTypeMismatch filter.field_name dt [.textList, .numberList])

/-- `apply_relation_filter` from `collection.rs`, parameterised by the
external `uuid::Uuid::parse_str` (`parseUuid` returns `none` exactly
when parsing fails). ConnectedTo / NotConnectedTo require a parsable
target id; HasConnections / HasNoConnections take no operand. -/
def apply_relation_filter (parseUuid : String → Option Uuid)
    (fields : List Field) (filter : RelationFilter) :
    Except FilterError Pred := do
  let field ← validate_field fields filter.field_name [.relation]
  match filter.comparison with
  | .connectedTo =>
    match filter.target_entry_id with
    | some target_id =>
      match parseUuid target_id with
      | some target_uuid => .ok (.relationP field.id (.existsTo target_uuid))
      | none => .error (.invalidOperand target_id)
    | none => .error (.missingRequiredOperand
        "target_entry_id is required for ConnectedTo comparison")
  | .notConnectedTo =>
    match filter.target_entry_id with
    | some target_id =>
      match parseUuid target_id with
      | some target_uuid => .ok (.relationP field.id (.notExistsTo target_uuid))
      | none => .error (.invalidOperand target_id)
    | none => .error (.missingRequiredOperand
        "target_entry_id is required for NotConnectedTo comparison")
  | .hasConnections => .ok (.relationP field.id .existsAny)
  | .hasNoConnections => .ok (.relationP field.id .notExistsAny)

/-- `apply_object_filter` from `collection.rs`: property-based
comparisons are unsupported (HasProperty without a path is a missing
operand); IsEmpty / IsNotEmpty compile to null checks. -/
def apply_object_filter (fields : List Field) (filter : ObjectFilter) :
    Except FilterError Pred := do
  let field ← validate_field fields filter.field_name [.object]
  match filter.comparison with
  | .hasProperty =>
    match filter.property_path with
    | some property_path => .error (.unsupportedComparison
        ("Object property filtering for " ++ property_path ++ " is not yet fully implemented"))
    | none => .error (.missingRequiredOperand
        "property_path is required for HasProperty comparison")
  | .propertyEquals => .error (.unsupportedComparison
      "PropertyEquals comparison not yet implemented")
  | .propertyContains => .error (.unsupportedComparison
      "PropertyContains comparison not yet implemented")
  | .isEmpty => .ok (.objectP field.id .isNull)
  | .isNotEmpty => .ok (.objectP field.id .isNotNull)

/-- One per-kind filter loop body of `apply_typed_filters`: apply each
filter of a kind in order, appending its compiled fragment; the first
error aborts. -/
def applyAll {α : Type} (applyOne : α → Except FilterError Pred)
    (acc : List Pred) : List α → Except FilterError (List Pred)
  | [] => .ok acc
  | filter :: rest => do
    let p ← applyOne filter
    applyAll applyOne (acc ++ [p]) rest

/-- One `if let Some(...) = filters.<kind>` block of
`apply_typed_filters`: an absent sequence contributes nothing. -/
def applyOpt {α : Type} (applyOne : α → Except FilterError Pred)
    (acc : List Pred) : Option (List α) → Except FilterError (List Pred)
  | none => .ok acc
  | some l => applyAll applyOne acc l

/-- `apply_typed_filters` from `collection.rs`: the seven kinds are
compiled in source order (text, number, boolean, date-time, list,
relation, object) into one conjunction of fragments. -/
def apply_typed_filters (parseUuid : String → Option Uuid)
    (fields : List Field) (filters : EntryFilters) :
    Except FilterError (List Pred) := do
  let preds ← applyOpt (apply_text_filter fields) [] filters.text_filters
  let preds ← applyOpt (apply_number_filter fields) preds filters.number_filters
  let preds ← applyOpt (apply_boolean_filter fields) preds filters.boolean_filters
  let preds ← applyOpt (apply_datetime_filter fields) preds filters.date_time_filters
  let preds ← applyOpt (apply_list_filter fields) preds filters.list_filters
  let preds ← applyOpt (apply_relation_filter parseUuid fields) preds filters.relation_filters
  let preds ← applyOpt (apply_object_filter fields) preds filters.object_filters
  .ok preds

/-- SQL LIKE matching over character lists: `%` matches any run of
characters, `_` matches any single character. -/
def likeMatch : List Char → List Char → Bool
  | [], [] => true
  | [], _ :: _ => false
  | '%' :: ps, [] => likeMatch ps []
  | '%' :: ps, c :: s => likeMatch ps (c :: s) || likeMatch ('%' :: ps) s
  | _ :: _, [] => false
  | p :: ps, c :: s => (p == '_' || p == c) && likeMatch ps s
termination_by p s => (p.length, s.length)

/-- SQL LIKE on strings. -/
def sqlLike (pattern s : String) : Bool :=
  likeMatch pattern.toList s.toList

/-- SQL evaluation of a text value condition; a NULL column value
satisfies no comparison (three-valued logic). -/
def evalTextCond (cond : TextCond) (value : Option String) : Bool :=
  match value with
  | none => false
  | some s =>
    match cond with
    | .eq v => s == v
    | .neq v => s != v
    | .like pattern => sqlLike pattern s

/-- SQL evaluation of a number value condition. -/
def evalNumCond (cond : NumCond) (value : Option Rat) : Bool :=
  match value with
  | none => false
  | some x =>
    match cond with
    | .eq v => x == v
    | .neq v => x != v
    | .gt v => decide (v < x)
    | .gte v => decide (v ≤ x)
    | .lt v => decide (x < v)
    | .lte v => decide (x ≤ v)

/-- SQL evaluation of a boolean value condition. -/
def evalBoolCond (cond : BoolCond) (value : Option Bool) : Bool :=
  match value with
  | none => false
  | some b =>
    match cond with
    | .eq v => b == v
    | .neq v => b != v

/-- SQL evaluation of a date-time value condition (ISO-8601 strings
compared as-is, spec section 4.2). -/
def evalDtCond (cond : DtCond) (value : Option String) : Bool :=
  match value with
  | none => false
  | some x =>
    match cond with
    | .eq v => x == v
    | .neq v => x != v
    | .gt v => decide (v < x)
    | .gte v => decide (v < x) || x == v
    | .lt v => decide (x < v)
    | .lte v => decide (x < v) || x == v

/-- Evaluation of a list value condition. The null checks are the SQL
`IS NULL` / `IS NOT NULL` on the list column; the LIKE case is
modelled from the spec (section 8): the pattern is matched against the
first element of the stored list (the entities crate's column encoding
is not under `src/`). -/
def evalListCondString (cond : ListCond) (value : Option (List String)) : Bool :=
  match cond with
  | .isNull => value == none
  | .isNotNull => value != none
  | .like pattern =>
    match value with
    | some (x :: _) => sqlLike pattern x
    | _ => false

/-- Evaluation of a list value condition on a number-list column; only
the null checks are reachable from compilation. -/
def evalListCondRat (cond : ListCond) (value : Option (List Rat)) : Bool :=
  match cond with
  | .isNull => value == none
  | .isNotNull => value != none
  | .like _ => false

/-- Evaluation of an object value condition. -/
def evalObjCond (cond : ObjCond) (value : Option String) : Bool :=
  match cond with
  | .isNull => value == none
  | .isNotNull => value != none

/-- SQL semantics of one compiled fragment over an entry: for the
join-based kinds the entry matches iff some row of the kind's value
table has this entry id, the targeted field id and a value satisfying
the condition; for relations the EXISTS / NOT EXISTS subqueries range
over the edge table. -/
def evalPred (db : DB) (p : Pred) (e : Entry) : Bool :=
  match p with
  | .textP fid cond =>
    db.textValues.any (fun r =>
      r.entry_id == e.id && r.field_id == fid && evalTextCond cond r.value)
  | .numberP fid cond =>
    db.numberValues.any (fun r =>
      r.entry_id == e.id && r.field_id == fid && evalNumCond cond r.value)
  | .booleanP fid cond =>
    db.booleanValues.any (fun r =>
      r.entry_id == e.id && r.field_id == fid && evalBoolCond cond r.value)
  | .dateTimeP fid cond =>
    db.dateTimeValues.any (fun r =>
      r.entry_id == e.id && r.field_id == fid && evalDtCond cond r.value)
  | .textListP fid cond =>
    db.textListValues.any (fun r =>
      r.entry_id == e.id && r.field_id == fid &&
        (match cond with
         | none => true
         | some c => evalListCondString c r.value))
  | .numberListP fid cond =>
    db.numberListValues.any (fun r =>
      r.entry_id == e.id && r.field_id == fid && evalListCondRat cond r.value)
  | .objectP fid cond =>
    db.objectValues.any (fun r =>
      r.entry_id == e.id && r.field_id == fid && evalObjCond cond r.value)
  | .relationP fid cond =>
    match cond with
    | .existsTo target =>
      db.relationValues.any (fun r =>
        r.from_entry_id == e.id && r.field_id == fid && r.to_entry_id == target)
    | .notExistsTo target =>
      !db.relationValues.any (fun r =>
        r.from_entry_id == e.id && r.field_id == fid && r.to_entry_id == target)
    | .existsAny =>
      db.relationValues.any (fun r =>
        r.from_entry_id == e.id && r.field_id == fid)
    | .notExistsAny =>
      !db.relationValues.any (fun r =>
        r.from_entry_id == e.id && r.field_id == fid)

/-- Insert an entry into a list sorted by `le`. -/
def insertSorted (le : Entry → Entry → Bool) (e : Entry) : List Entry → List Entry
  | [] => [e]
  | x :: xs => if le e x then e :: x :: xs else x :: insertSorted le e xs

/-- Sort entries by `le` (models the SQL ORDER BY on `created_at`). -/
def sortEntries (le : Entry → Entry → Bool) : List Entry → List Entry
  | [] => []
  | x :: xs => insertSorted le x (sortEntries le xs)

/-- `Collection::entries` from `collection.rs` (the spec's
`list_entries`): load the collection's fields, compile the filters if
present, keep the collection's entries satisfying every compiled
fragment, and order by `created_at` in the requested direction. -/
def Collection.entries (parseUuid : String → Option Uuid) (db : DB)
    (c : Collection) (filters : Option EntryFilters)
    (order_by : Option EntryOrderBy) : Except FilterError (List Entry) := do
  let ob := order_by.getD .asc
  let le : Entry → Entry → Bool :=
    match ob with
    | .asc => fun a b => a.created_at ≤ b.created_at
    | .desc => fun a b => b.created_at ≤ a.created_at
  let fields := db.fields.filter (fun f => f.collection_id == c.id)
  let preds ←
    match filters with
    | some fs => apply_typed_filters parseUuid fields fs
    | none => .ok []
  let selected := db.entries.filter (fun e =>
    e.collection_id == c.id && preds.all (fun p => evalPred db p e))
  .ok (sortEntries le selected)

/-- `ValueType` from `entries.rs`: the closed union of typed values. -/
inductive ValueType
  | text (value : Option String)
  | typstText (raw : String) (rendered : String)
  | boolean (value : Option Bool)
  | number (value : Option Rat)
  | relation (from_entry_id : Uuid) (to_entry_id : Uuid)
  | dateTime (value : Option String)
  | textList (value : List String)
  | numberList (value : List Rat)
  | object (value : String)
deriving DecidableEq

/-- `ValueType::from_data_type` from `entries.rs`: fetch the first row
of the data type's table keyed by (entry_id, field_id) (`.one(db)`),
returning `none` when no row is stored. List payloads that are
present-but-null materialize as empty lists (`unwrap_or_default`); a
null object payload renders as the JSON text `null`. -/
def ValueType.from_data_type (db : DB) (data_type : DataTypes)
    (entry_id field_id : Uuid) : Option ValueType :=
  match data_type with
  | .text =>
    match db.textValues.find? (fun r => r.entry_id == entry_id && r.field_id == field_id) with
    | some v => some (.text v.value)
    | none => none
  | .typstText =>
    match db.typstTextValues.find? (fun r => r.entry_id == entry_id && r.field_id == field_id) with
    | some v => some (.typstText v.raw v.rendered)
    | none => none
  | .boolean =>
    match db.booleanValues.find? (fun r => r.entry_id == entry_id && r.field_id == field_id) with
    | some v => some (.boolean v.value)
    | none => none
  | .number =>
    match db.numberValues.find? (fun r => r.entry_id == entry_id && r.field_id == field_id) with
    | some v => some (.number v.value)
    | none => none
  | .relation =>
    match db.relationValues.find? (fun r => r.from_entry_id == entry_id && r.field_id == field_id) with
    | some v => some (.relation v.from_entry_id v.to_entry_id)
    | none => none
  | .dateTime =>
    match db.dateTimeValues.find? (fun r => r.entry_id == entry_id && r.field_id == field_id) with
    | some v => some (.dateTime v.value)
    | none => none
  | .textList =>
    match db.textListValues.find? (fun r => r.entry_id == entry_id && r.field_id == field_id) with
    | some v => some (.textList (v.value.getD []))
    | none => none
  | .numberList =>
    match db.numberListValues.find? (fun r => r.entry_id == entry_id && r.field_id == field_id) with
    | some v => some (.numberList (v.value.getD []))
    | none => none
  | .object =>
    match db.objectValues.find? (fun r => r.entry_id == entry_id && r.field_id == field_id) with
    | some v => some (.object (v.value.getD "null"))
    | none => none

/-- `FieldValue` from `entries.rs`. -/
structure FieldValue where
  field : Field
  value : ValueType
deriving DecidableEq

/-- The loop body of `Entry::values`: walk the field catalog in order,
pushing a `FieldValue` for each field whose type-specific table has a
stored row and skipping the rest. -/
def materializeFields (db : DB) (e : Entry) (fields : List Field) : List FieldValue :=
  fields.foldl (fun values f =>
    match ValueType.from_data_type db f.data_type e.id f.id with
    | some v => values ++ [⟨f, v⟩]
    | none => values) []

/-- `Entry::values` from `entries.rs` (the spec's `materialize`): the
catalog is the collection's fields as stored. -/
def Entry.values (db : DB) (e : Entry) : List FieldValue :=
  materializeFields db e (db.fields.filter (fun f => f.collection_id == e.collection_id))

/-- Whether the value table for `data_type` holds a row keyed by
(entry_id, field_id); the relation table is keyed by its
`from_entry_id`. -/
def hasValueRow (db : DB) (data_type : DataTypes) (entry_id field_id : Uuid) : Bool :=
  match data_type with
  | .text => db.textValues.any (fun r => r.entry_id == entry_id && r.field_id == field_id)
  | .typstText => db.typstTextValues.any (fun r => r.entry_id == entry_id && r.field_id == field_id)
  | .boolean => db.booleanValues.any (fun r => r.entry_id == entry_id && r.field_id == field_id)
  | .number => db.numberValues.any (fun r => r.entry_id == entry_id && r.field_id == field_id)
  | .relation => db.relationValues.any (fun r => r.from_entry_id == entry_id && r.field_id == field_id)
  | .dateTime => db.dateTimeValues.any (fun r => r.entry_id == entry_id && r.field_id == field_id)
  | .textList => db.textListValues.any (fun r => r.entry_id == entry_id && r.field_id == field_id)
  | .numberList => db.numberListValues.any (fun r => r.entry_id == entry_id && r.field_id == field_id)
  | .object => db.objectValues.any (fun r => r.entry_id == entry_id && r.field_id == field_id)

/-- `CollectionsPage` from `query.rs` (i32 counters modelled as
integers). -/
structure CollectionsPage where
  items : List CollectionRow
  num_pages : Int
  num_items : Int
  index : Int
  size : Int
deriving DecidableEq

/-- `Query::collections` from `query.rs` (the spec's
`paginate_collections`), parameterised by the store's full-text name
match (`to_tsquery`, external). The page number defaults to 1 and is
clamped to at least 1; the page size defaults to 10 and is clamped into
[1, 100]. The paginator arithmetic (`fetch_page`,
`num_items_and_pages`) is modelled from the spec: the requested
zero-based page slice, the total item count, and
`num_pages = ceil(num_items / page_size)`. -/
def Query.collections (db : DB) (nameMatch : String → String → Bool)
    (collection_name : Option String) (page page_size : Option Int)
    (created_after created_before : Option Nat) : CollectionsPage :=
  let page_num : Int := max (page.getD 1) 1
  let psize : Int := min (max (page_size.getD 10) 1) 100
  let q1 : List CollectionRow :=
    match collection_name with
    | some name => db.collections.filter (fun c => nameMatch name c.name)
    | none => db.collections
  let q2 : List CollectionRow :=
    match created_after with
    | some a => q1.filter (fun c => a ≤ c.created_at)
    | none => q1
  let q3 : List CollectionRow :=
    match created_before with
    | some b => q2.filter (fun c => c.created_at ≤ b)
    | none => q2
  let sz : Nat := psize.toNat
  let total : Nat := q3.length
  { items := (q3.drop ((page_num - 1).toNat * sz)).take sz
    num_pages := ((total + sz - 1) / sz : Nat)
    num_items := (total : Nat)
    index := page_num
    size := psize }

/-! Helper lemmas. -/

theorem find?_isSome_eq_any {α : Type} (p : α → Bool) :
    ∀ l : List α, (l.find? p).isSome = l.any p := by
  intro l
  induction l with
  | nil => rfl
  | cons x xs ih =>
    cases h : p x <;> simp [List.find?_cons, List.any_cons, h, ih]

theorem mem_insertSorted (le : Entry → Entry → Bool) (e x : Entry) :
    ∀ l : List Entry, x ∈ insertSorted le e l ↔ x = e ∨ x ∈ l := by
  intro l
  induction l with
  | nil => simp [insertSorted]
  | cons y ys ih =>
    by_cases h : le e y = true
    · simp [insertSorted, h]
    · simp only [insertSorted, if_neg h, List.mem_cons, ih]
      tauto

theorem mem_sortEntries (le : Entry → Entry → Bool) (x : Entry) :
    ∀ l : List Entry, x ∈ sortEntries le l ↔ x ∈ l := by
  intro l
  induction l with
  | nil => simp [sortEntries]
  | cons y ys ih =>
    simp [sortEntries, mem_insertSorted, ih]

theorem except_bind_ok {ε α β : Type} (a : Except ε α) (f : α → Except ε β) (r : β)
    (h : a >>= f = .ok r) : ∃ v, a = .ok v ∧ f v = .ok r := by
  cases a with
  | ok v => exact ⟨v, rfl, h⟩
  | error e => simp [Bind.bind, Except.bind] at h

theorem applyAll_ok {α : Type} (applyOne : α → Except FilterError Pred) :
    ∀ (l : List α) (acc res : List Pred), applyAll applyOne acc l = .ok res →
      ∀ x ∈ l, ∃ p, applyOne x = .ok p := by
  intro l
  induction l with
  | nil => intro acc res _ x hx; simp at hx
  | cons flt rest ih =>
    intro acc res h x hx
    rw [applyAll] at h
    cases hf : applyOne flt with
    | error e => rw [hf] at h; simp [Bind.bind, Except.bind] at h
    | ok p =>
      rw [hf] at h
      simp only [Bind.bind, Except.bind] at h
      rcases List.mem_cons.mp hx with rfl | hx
      · exact ⟨p, hf⟩
      · exact ih (acc ++ [p]) res h x hx

theorem applyOpt_ok {α : Type} (applyOne : α → Except FilterError Pred)
    (o : Option (List α)) (acc res : List Pred) (h : applyOpt applyOne acc o = .ok res) :
    ∀ x ∈ o.getD [], ∃ p, applyOne x = .ok p := by
  cases o with
  | none => intro x hx; simp at hx
  | some l => exact applyAll_ok applyOne l acc res h

theorem bind_validate_ok {β : Type} (fields : List Field) (name : String)
    (ets : List DataTypes) (rest : Field → Except FilterError β) (r : β)
    (h : (validate_field fields name ets >>= rest) = .ok r) :
    (validate_field fields name ets).isOk = true := by
  cases hv : validate_field fields name ets <;> rw [hv] at h
  · simp [Bind.bind, Except.bind] at h
  · rfl

theorem and_true_left {a b : Bool} (h : (a && b) = true) : a = true := by
  cases a
  · simp at h
  · rfl

theorem and_true_right {a b : Bool} (h : (a && b) = true) : b = true := by
  cases b
  · simp at h
  · rfl

theorem any_mono_false {α : Type} {l : List α} {p q : α → Bool}
    (hpq : ∀ x, q x = true → p x = true) (h : l.any p = false) : l.any q = false := by
  cases hq : l.any q
  · rfl
  · exfalso
    rcases List.any_eq_true.mp hq with ⟨x, hx, hqx⟩
    have hp : l.any p = true := List.any_eq_true.mpr ⟨x, hx, hpq x hqx⟩
    rw [h] at hp
    cases hp

theorem materialize_foldl (db : DB) (e : Entry) :
    ∀ (fields : List Field) (acc : List FieldValue),
    fields.foldl (fun values f =>
      match ValueType.from_data_type db f.data_type e.id f.id with
      | some v => values ++ [⟨f, v⟩]
      | none => values) acc
    = acc ++ fields.filterMap (fun f =>
        (ValueType.from_data_type db f.data_type e.id f.id).map
          (fun v => (⟨f, v⟩ : FieldValue))) := by
  intro fields
  induction fields with
  | nil => intro acc; simp
  | cons f fs ih =>
    intro acc
    rw [List.foldl_cons, List.filterMap_cons]
    cases h : ValueType.from_data_type db f.data_type e.id f.id with
    | none => simp [ih]
    | some v => simp [ih]

theorem materializeFields_eq (db : DB) (e : Entry) (fields : List Field) :
    materializeFields db e fields
      = fields.filterMap (fun f =>
          (ValueType.from_data_type db f.data_type e.id f.id).map
            (fun v => (⟨f, v⟩ : FieldValue))) := by
  rw [materializeFields, materialize_foldl]
  simp

theorem from_data_type_isSome (db : DB) (dt : DataTypes) (i j : Uuid) :
    (ValueType.from_data_type db dt i j).isSome = hasValueRow db dt i j := by
  cases dt <;>
    simp only [ValueType.from_data_type, hasValueRow, ← find?_isSome_eq_any] <;>
    (split <;> simp_all)

theorem materializeFields_map_field (db : DB) (e : Entry) (fields : List Field) :
    (materializeFields db e fields).map (fun fv => fv.field)
      = fields.filter (fun f => hasValueRow db f.data_type e.id f.id) := by
  rw [materializeFields_eq]
  induction fields with
  | nil => rfl
  | cons f fs ih =>
    rw [List.filterMap_cons, List.filter_cons]
    cases h : ValueType.from_data_type db f.data_type e.id f.id with
    | none =>
      have hrow : hasValueRow db f.data_type e.id f.id = false := by
        rw [← from_data_type_isSome, h]; rfl
      simp [hrow, ih]
    | some v =>
      have hrow : hasValueRow db f.data_type e.id f.id = true := by
        rw [← from_data_type_isSome, h]; rfl
      simp [hrow, ih]

theorem materialize_filter_le (db : DB) (e : Entry) (fields : List Field) (fid : Uuid) :
    ((materializeFields db e fields).filter (fun fv => fv.field.id == fid)).length
      ≤ (fields.filter (fun f => f.id == fid)).length := by
  rw [materializeFields_eq]
  induction fields with
  | nil => simp
  | cons f fs ih =>
    rw [List.filterMap_cons, List.filter_cons]
    cases h : ValueType.from_data_type db f.data_type e.id f.id with
    | none => cases hf : (f.id == fid) <;> simp [hf] <;> omega
    | some v => cases hf : (f.id == fid) <;> simp [hf] <;> omega

theorem ceil_helper (t sz : Nat) (hsz : 0 < sz) :
    (((t + sz - 1) / sz : Nat) : Int) = ⌈(t : ℚ) / (sz : ℚ)⌉ := by
  obtain ⟨q, hq⟩ : ∃ q, q = (t + sz - 1) / sz := ⟨_, rfl⟩
  rw [← hq]
  have hmod := Nat.div_add_mod (t + sz - 1) sz
  rw [← hq] at hmod
  have hlt : (t + sz - 1) % sz < sz := Nat.mod_lt _ hsz
  obtain ⟨k, hk⟩ : ∃ k, k = sz * q := ⟨_, rfl⟩
  rw [← hk] at hmod
  have h1 : t ≤ k := by omega
  have h2 : k < t + sz := by omega
  have hkq : (k : ℚ) = (sz : ℚ) * (q : ℚ) := by rw [hk]; push_cast; ring
  have hszq : (0 : ℚ) < (sz : ℚ) := by exact_mod_cast hsz
  have hqq : (((q : Nat) : Int) : ℚ) = (q : ℚ) := by push_cast; rfl
  rw [eq_comm, Int.ceil_eq_iff]
  constructor
  · rw [lt_div_iff₀ hszq]
    have hcast : (k : ℚ) < (t : ℚ) + (sz : ℚ) := by exact_mod_cast h2
    rw [hqq]
    nlinarith [hcast, hkq]
  · rw [div_le_iff₀ hszq]
    have hcast : (t : ℚ) ≤ (k : ℚ) := by exact_mod_cast h1
    rw [hqq]
    nlinarith [hcast, hkq]

theorem pages_eq (t : Nat) (psize : Int) (h : 1 ≤ psize) :
    (((t + psize.toNat - 1) / psize.toNat : Nat) : Int) = ⌈(t : ℚ) / ((psize : Int) : ℚ)⌉ := by
  have hsz : 0 < psize.toNat := by omega
  rw [ceil_helper t psize.toNat hsz]
  congr 1
  rw [← Int.toNat_of_nonneg (by omega : (0 : Int) ≤ psize)]
  push_cast
  rfl

/-! Sample data for concrete evaluations. -/

/-- A parse function on which every string fails to parse. -/
def parseNone : String → Option Uuid := fun _ => none

/-- A parse function accepting exactly the string "t". -/
def parseT : String → Option Uuid := fun s => if s == "t" then some 99 else none

def eW : Entry := ⟨1, 5, 10, 0, "a"⟩

def colW : Collection := ⟨10, "c", 0, 0⟩

def fBool : Field := ⟨3, 10, "paid", .boolean, 0⟩

def fRel : Field := ⟨2, 10, "rel", .relation, 0⟩

def fTypst : Field := ⟨2, 10, "body", .typstText, 0⟩

def fText : Field := ⟨5, 10, "title", .text, 0⟩

def fNumList : Field := ⟨3, 10, "nums", .numberList, 0⟩

def fTextList : Field := ⟨4, 10, "tags", .textList, 0⟩

def dbRel : DB := ⟨[], [eW], [fRel], [], [], [], [], [], [], [], [], []⟩

def dbTypst : DB := ⟨[], [eW], [fTypst], [], [⟨1, 2, "hello", "hello"⟩], [], [], [], [], [], [], []⟩

def dbBool : DB := ⟨[], [eW], [fBool], [], [], [], [], [], [], [], [], []⟩

def dbRel2 : DB := ⟨[], [], [], [], [], [], [], [], [], [], [⟨1, 2, 5⟩, ⟨1, 2, 6⟩], []⟩

def filtersRel : EntryFilters :=
  ⟨none, none, none, none, none, some [⟨"rel", .notConnectedTo, some "t"⟩], none⟩

def filtersRelNC : EntryFilters :=
  ⟨none, none, none, none, none, some [⟨"rel", .hasNoConnections, none⟩], none⟩

def filtersTypst : EntryFilters :=
  ⟨some [⟨"body", .eq, "hello"⟩], none, none, none, none, none, none⟩

def filtersBool : EntryFilters :=
  ⟨none, none, some [⟨"paid", .eq, true⟩], none, none, none, none⟩

/-! Claim theorems. -/

/-- C4: for every entry and field catalog, materialization returns one
(Field, TypedValue) pair, in catalog order, for exactly those fields
that have a stored value row for the entry; a field with no stored row
is omitted (never returned as a null placeholder), so the result length
never exceeds (indeed equals) the number of fields with a stored value
row; `Entry::values` is this materialization over the collection's
catalog. -/
theorem c4_theorem : ∀ (db : DB) (e : Entry) (fields : List Field),
    (materializeFields db e fields).map (fun fv => fv.field)
      = fields.filter (fun f => hasValueRow db f.data_type e.id f.id)
  ∧ (materializeFields db e fields).length
      = (fields.filter (fun f => hasValueRow db f.data_type e.id f.id)).length
  ∧ Entry.values db e
      = materializeFields db e (db.fields.filter (fun f => f.collection_id == e.collection_id)) := by
  intro db e fields
  refine ⟨materializeFields_map_field db e fields, ?_, rfl⟩
  rw [← materializeFields_map_field db e fields, List.length_map]

/-- C10: materialization yields at most one value per catalog field
occurrence even when several value rows exist for the (entry, field)
pair, and for a Relation field the single materialized edge is the
first matching row chosen by the store (`.one(db)`); later edges are
not represented. -/
theorem c10_theorem : ∀ (db : DB) (e : Entry) (fields : List Field) (fid : Uuid)
    (entry_id field_id : Uuid) (r : EntryRelationValue),
    ((materializeFields db e fields).filter (fun fv => fv.field.id == fid)).length
      ≤ (fields.filter (fun f => f.id == fid)).length
  ∧ (db.relationValues.find?
        (fun x => x.from_entry_id == entry_id && x.field_id == field_id) = some r →
      ValueType.from_data_type db .relation entry_id field_id
        = some (.relation r.from_entry_id r.to_entry_id)) := by
  intro db e fields fid entry_id field_id r
  refine ⟨materialize_filter_le db e fields fid, ?_⟩
  intro h
  simp only [ValueType.from_data_type, h]

/-- C10 witness: with two edges (1,2,5) and (1,2,6) stored for the same
(entry, field) pair, only the first is materialized. -/
theorem c10_witness :
    dbRel2.relationValues.find? (fun x => x.from_entry_id == 1 && x.field_id == 2)
      = some ⟨1, 2, 5⟩
  ∧ ValueType.from_data_type dbRel2 .relation 1 2 = some (.relation 1 5) :=
  ⟨by decide, (c10_theorem dbRel2 eW [] 0 1 2 ⟨1, 2, 5⟩).2 (by decide)⟩

/-- C8: Contains / StartsWith / EndsWith compile to the patterns
%value%, value% and %value with the user value inserted verbatim by
string concatenation — wildcard characters already in the value are not
escaped. -/
theorem c8_theorem : ∀ (fields : List Field) (flt : TextFilter) (f : Field),
    validate_field fields flt.field_name [.text, .typstText] = .ok f →
    (flt.comparison = .contains →
      apply_text_filter fields flt = .ok (.textP f.id (.like ("%" ++ flt.value ++ "%"))))
  ∧ (flt.comparison = .startsWith →
      apply_text_filter fields flt = .ok (.textP f.id (.like (flt.value ++ "%"))))
  ∧ (flt.comparison = .endsWith →
      apply_text_filter fields flt = .ok (.textP f.id (.like ("%" ++ flt.value)))) := by
  intro fields flt f hv
  refine ⟨?_, ?_, ?_⟩ <;> intro hc <;>
    simp [apply_text_filter, hv, hc, Bind.bind, Except.bind]

/-- C8 witness: the value a%b, which already contains a wildcard, is
embedded verbatim in all three patterns. -/
theorem c8_witness :
    apply_text_filter [fText] ⟨"title", .contains, "a%b"⟩ = .ok (.textP 5 (.like "%a%b%"))
  ∧ apply_text_filter [fText] ⟨"title", .startsWith, "a%b"⟩ = .ok (.textP 5 (.like "a%b%"))
  ∧ apply_text_filter [fText] ⟨"title", .endsWith, "a%b"⟩ = .ok (.textP 5 (.like "%a%b")) :=
  ⟨(c8_theorem [fText] ⟨"title", .contains, "a%b"⟩ fText (by decide)).1 rfl,
   (c8_theorem [fText] ⟨"title", .startsWith, "a%b"⟩ fText (by decide)).2.1 rfl,
   (c8_theorem [fText] ⟨"title", .endsWith, "a%b"⟩ fText (by decide)).2.2 rfl⟩

/-- C9: a list Contains filter on a TextList field with absent or empty
values compiles without error to the join-plus-field condition alone
(no pattern condition), so its predicate is mere existence of a value
row for the field. -/
theorem c9_theorem : ∀ (fields : List Field) (flt : ListFilter) (f : Field)
    (db : DB) (e : Entry),
    fields.find? (fun g => g.name == flt.field_name) = some f →
    f.data_type = .textList →
    flt.comparison = .contains →
    (flt.values = none ∨ flt.values = some []) →
    apply_list_filter fields flt = .ok (.textListP f.id none)
  ∧ evalPred db (.textListP f.id none) e
      = db.textListValues.any (fun r => r.entry_id == e.id && r.field_id == f.id) := by
  intro fields flt f db e hfind hdt hc hv
  constructor
  · have hval : validate_field fields flt.field_name [.textList, .numberList] = .ok f := by
      simp [validate_field, hfind, hdt]
    rcases hv with hv | hv <;>
      simp [apply_list_filter, hval, Bind.bind, Except.bind, hdt, hc, hv]
  · simp [evalPred]

/-- C9 witness: a Contains filter on the TextList field with an empty
values list compiles to the bare existence predicate. -/
theorem c9_witness :
    apply_list_filter [fTextList] ⟨"tags", .contains, some []⟩ = .ok (.textListP 4 none)
  ∧ evalPred dbBool (.textListP 4 none) eW
      = dbBool.textListValues.any (fun r => r.entry_id == eW.id && r.field_id == 4) :=
  ⟨(c9_theorem [fTextList] ⟨"tags", .contains, some []⟩ fTextList dbBool eW
      (by decide) rfl rfl (Or.inr rfl)).1,
   (c9_theorem [fTextList] ⟨"tags", .contains, some []⟩ fTextList dbBool eW
      (by decide) rfl rfl (Or.inr rfl)).2⟩

/-- C6: a ConnectedTo / NotConnectedTo relation filter whose target id
is present but unparsable fails with InvalidOperand; one whose target
id is absent fails with MissingRequiredOperand; in either case compiling
a filter set containing the filter never succeeds, so no storage query
runs. -/
theorem c6_theorem : ∀ (parseUuid : String → Option Uuid) (fields : List Field)
    (flt : RelationFilter) (f : Field),
    validate_field fields flt.field_name [.relation] = .ok f →
    (flt.comparison = .connectedTo ∨ flt.comparison = .notConnectedTo) →
    (∀ s, flt.target_entry_id = some s → parseUuid s = none →
      apply_relation_filter parseUuid fields flt = .error (.invalidOperand s))
  ∧ (flt.target_entry_id = none →
      ∃ msg, apply_relation_filter parseUuid fields flt = .error (.missingRequiredOperand msg))
  ∧ ((flt.target_entry_id = none ∨ ∃ s, flt.target_entry_id = some s ∧ parseUuid s = none) →
      ∀ preds, apply_typed_filters parseUuid fields
        ⟨none, none, none, none, none, some [flt], none⟩ ≠ .ok preds) := by
  intro parseUuid fields flt f hv hcmp
  refine ⟨?_, ?_, ?_⟩
  · intro s hts hp
    rcases hcmp with hc | hc <;>
      simp [apply_relation_filter, hv, Bind.bind, Except.bind, hc, hts, hp]
  · intro hts
    rcases hcmp with hc | hc
    · exact ⟨"target_entry_id is required for ConnectedTo comparison",
        by simp [apply_relation_filter, hv, Bind.bind, Except.bind, hc, hts]⟩
    · exact ⟨"target_entry_id is required for NotConnectedTo comparison",
        by simp [apply_relation_filter, hv, Bind.bind, Except.bind, hc, hts]⟩
  · intro hbad preds hok
    have herr : ∃ er, apply_relation_filter parseUuid fields flt = .error er := by
      rcases hbad with hts | ⟨s, hts, hp⟩
      · rcases hcmp with hc | hc
        · exact ⟨.missingRequiredOperand "target_entry_id is required for ConnectedTo comparison",
            by simp [apply_relation_filter, hv, Bind.bind, Except.bind, hc, hts]⟩
        · exact ⟨.missingRequiredOperand "target_entry_id is required for NotConnectedTo comparison",
            by simp [apply_relation_filter, hv, Bind.bind, Except.bind, hc, hts]⟩
      · rcases hcmp with hc | hc
        · exact ⟨.invalidOperand s,
            by simp [apply_relation_filter, hv, Bind.bind, Except.bind, hc, hts, hp]⟩
        · exact ⟨.invalidOperand s,
            by simp [apply_relation_filter, hv, Bind.bind, Except.bind, hc, hts, hp]⟩
    obtain ⟨er, her⟩ := herr
    simp [apply_typed_filters, applyOpt, applyAll, her, Bind.bind, Except.bind] at hok

/-- C6 witness: on a relation field, ConnectedTo with the unparsable
target bad fails with InvalidOperand, NotConnectedTo without a target
fails with MissingRequiredOperand, and compiling the filter set never
succeeds. -/
theorem c6_witness :
    apply_relation_filter parseNone [fRel] ⟨"rel", .connectedTo, some "bad"⟩
      = .error (.invalidOperand "bad")
  ∧ (∃ msg, apply_relation_filter parseNone [fRel] ⟨"rel", .notConnectedTo, none⟩
      = .error (.missingRequiredOperand msg))
  ∧ ∀ preds, apply_typed_filters parseNone [fRel]
      ⟨none, none, none, none, none, some [⟨"rel", .connectedTo, some "bad"⟩], none⟩
        ≠ .ok preds :=
  ⟨(c6_theorem parseNone [fRel] ⟨"rel", .connectedTo, some "bad"⟩ fRel (by decide)
      (Or.inl rfl)).1 "bad" rfl rfl,
   (c6_theorem parseNone [fRel] ⟨"rel", .notConnectedTo, none⟩ fRel (by decide)
      (Or.inr rfl)).2.1 rfl,
   (c6_theorem parseNone [fRel] ⟨"rel", .connectedTo, some "bad"⟩ fRel (by decide)
      (Or.inl rfl)).2.2 (Or.inr ⟨"bad", rfl, rfl⟩)⟩

/-- C5: field resolution fails with FieldNotFound when no field bears
the requested name and with FieldTypeMismatch when the named field's
type is outside the allowed set; and whenever compilation of a filter
set succeeds, every filter of every kind passed validation — so a
failing filter aborts the whole compilation and no query executes. -/
theorem c5_theorem : ∀ (fields : List Field) (name : String) (expected : List DataTypes),
    ((∀ f ∈ fields, f.name ≠ name) →
      validate_field fields name expected = .error (.fieldNotFound name))
  ∧ (∀ f, fields.find? (fun g => g.name == name) = some f → f.data_type ∉ expected →
      validate_field fields name expected
        = .error (.fieldTypeMismatch name f.data_type expected))
  ∧ (∀ (parseUuid : String → Option Uuid) (filters : EntryFilters) (preds : List Pred),
      apply_typed_filters parseUuid fields filters = .ok preds →
        (∀ flt ∈ filters.text_filters.getD [],
          (validate_field fields flt.field_name [.text, .typstText]).isOk = true)
      ∧ (∀ flt ∈ filters.number_filters.getD [],
          (validate_field fields flt.field_name [.number]).isOk = true)
      ∧ (∀ flt ∈ filters.boolean_filters.getD [],
          (validate_field fields flt.field_name [.boolean]).isOk = true)
      ∧ (∀ flt ∈ filters.date_time_filters.getD [],
          (validate_field fields flt.field_name [.dateTime]).isOk = true)
      ∧ (∀ flt ∈ filters.list_filters.getD [],
          (validate_field fields flt.field_name [.textList, .numberList]).isOk = true)
      ∧ (∀ flt ∈ filters.relation_filters.getD [],
          (validate_field fields flt.field_name [.relation]).isOk = true)
      ∧ (∀ flt ∈ filters.object_filters.getD [],
          (validate_field fields flt.field_name [.object]).isOk = true)) := by
  intro fields name expected
  refine ⟨?_, ?_, ?_⟩
  · intro hnone
    have hfind : fields.find? (fun f => f.name == name) = none := by
      rw [List.find?_eq_none]
      intro f hf
      simp [hnone f hf]
    simp [validate_field, hfind]
  · intro f hfind hne
    have hc : expected.contains f.data_type = false := by
      cases hcc : expected.contains f.data_type
      · rfl
      · exfalso
        apply hne
        simpa using hcc
    simp [validate_field, hfind, hc]
    exact hne
  · intro parseUuid filters preds h
    rw [apply_typed_filters] at h
    obtain ⟨p1, h1, h⟩ := except_bind_ok _ _ _ h
    obtain ⟨p2, h2, h⟩ := except_bind_ok _ _ _ h
    obtain ⟨p3, h3, h⟩ := except_bind_ok _ _ _ h
    obtain ⟨p4, h4, h⟩ := except_bind_ok _ _ _ h
    obtain ⟨p5, h5, h⟩ := except_bind_ok _ _ _ h
    obtain ⟨p6, h6, h⟩ := except_bind_ok _ _ _ h
    obtain ⟨p7, h7, _⟩ := except_bind_ok _ _ _ h
    refine ⟨?_, ?_, ?_, ?_, ?_, ?_, ?_⟩ <;> intro flt hm
    · obtain ⟨p, hp⟩ := applyOpt_ok _ _ _ _ h1 flt hm
      rw [apply_text_filter] at hp
      exact bind_validate_ok _ _ _ _ _ hp
    · obtain ⟨p, hp⟩ := applyOpt_ok _ _ _ _ h2 flt hm
      rw [apply_number_filter] at hp
      exact bind_validate_ok _ _ _ _ _ hp
    · obtain ⟨p, hp⟩ := applyOpt_ok _ _ _ _ h3 flt hm
      rw [apply_boolean_filter] at hp
      exact bind_validate_ok _ _ _ _ _ hp
    · obtain ⟨p, hp⟩ := applyOpt_ok _ _ _ _ h4 flt hm
      rw [apply_datetime_filter] at hp
      exact bind_validate_ok _ _ _ _ _ hp
    · obtain ⟨p, hp⟩ := applyOpt_ok _ _ _ _ h5 flt hm
      rw [apply_list_filter] at hp
      exact bind_validate_ok _ _ _ _ _ hp
    · obtain ⟨p, hp⟩ := applyOpt_ok _ _ _ _ h6 flt hm
      rw [apply_relation_filter] at hp
      exact bind_validate_ok _ _ _ _ _ hp
    · obtain ⟨p, hp⟩ := applyOpt_ok _ _ _ _ h7 flt hm
      rw [apply_object_filter] at hp
      exact bind_validate_ok _ _ _ _ _ hp

/-- C5 witness: on a catalog with one Text field named title, resolving
the absent name missing fails with FieldNotFound and resolving title
against the Number-only allowed set fails with FieldTypeMismatch. -/
theorem c5_witness :
    validate_field [fText] "missing" [.text] = .error (.fieldNotFound "missing")
  ∧ validate_field [fText] "title" [.number]
      = .error (.fieldTypeMismatch "title" .text [.number]) :=
  ⟨(c5_theorem [fText] "missing" [.text]).1 (by decide),
   (c5_theorem [fText] "title" [.number]).2.1 fText (by decide) (by decide)⟩

/-- C7: the returned page index is the requested page clamped to at
least 1 (default 1), the returned size is the requested page size
clamped into [1, 100] (default 10), and num_pages is the ceiling of
num_items divided by the effective size; in particular a requested
page_size of 500 yields size 100 and a requested page of 0 yields
index 1. -/
theorem c7_theorem : ∀ (db : DB) (nameMatch : String → String → Bool) (cn : Option String)
    (page page_size : Option Int) (ca cb : Option Nat),
    (Query.collections db nameMatch cn page page_size ca cb).index = max (page.getD 1) 1
  ∧ (Query.collections db nameMatch cn page page_size ca cb).size
      = min (max (page_size.getD 10) 1) 100
  ∧ (Query.collections db nameMatch cn page page_size ca cb).num_pages
      = ⌈((Query.collections db nameMatch cn page page_size ca cb).num_items : ℚ)
          / ((Query.collections db nameMatch cn page page_size ca cb).size : ℚ)⌉
  ∧ (Query.collections db nameMatch cn page (some 500) ca cb).size = 100
  ∧ (Query.collections db nameMatch cn (some 0) page_size ca cb).index = 1 := by
  intro db nameMatch cn page page_size ca cb
  have h1 : (1 : Int) ≤ min (max (page_size.getD 10) 1) 100 := by
    have := le_max_right (page_size.getD 10) 1
    omega
  refine ⟨rfl, rfl, ?_, ?_, ?_⟩
  · simp only [Query.collections]
    exact pages_eq _ _ h1
  · show min (max ((500 : Int)) 1) 100 = 100
    decide
  · show max ((0 : Int)) 1 = 1
    decide

/-- C1 counterexample: an entry with no edge row at all for a Relation
field does satisfy NotConnectedTo and HasNoConnections filters on that
field — it is returned by list_entries, because relation filters are
compiled to EXISTS / NOT EXISTS subqueries rather than inner joins. -/
theorem c1_counterexample :
    dbRel.relationValues = []
  ∧ Collection.entries parseT dbRel colW (some filtersRel) none = .ok [eW]
  ∧ Collection.entries parseT dbRel colW (some filtersRelNC) none = .ok [eW] :=
  ⟨rfl, by decide, by decide⟩

/-- C1 (amended): for the seven join-based kinds (text, number,
boolean, date-time, text list, number list, object) an entry with no
value row for the targeted field is excluded under every comparison,
including Neq; but Relation filters use EXISTS / NOT EXISTS subqueries,
so an entry with no edge row for the field fails ConnectedTo and
HasConnections yet satisfies NotConnectedTo and HasNoConnections; and
any entry of a list_entries result satisfies every compiled fragment,
so a fragment evaluating false on an entry excludes it. -/
theorem c1_theorem : ∀ (db : DB) (e : Entry) (fid : Uuid),
    (∀ cond, hasValueRow db .text e.id fid = false →
      evalPred db (.textP fid cond) e = false)
  ∧ (∀ cond, hasValueRow db .number e.id fid = false →
      evalPred db (.numberP fid cond) e = false)
  ∧ (∀ cond, hasValueRow db .boolean e.id fid = false →
      evalPred db (.booleanP fid cond) e = false)
  ∧ (∀ cond, hasValueRow db .dateTime e.id fid = false →
      evalPred db (.dateTimeP fid cond) e = false)
  ∧ (∀ cond, hasValueRow db .textList e.id fid = false →
      evalPred db (.textListP fid cond) e = false)
  ∧ (∀ cond, hasValueRow db .numberList e.id fid = false →
      evalPred db (.numberListP fid cond) e = false)
  ∧ (∀ cond, hasValueRow db .object e.id fid = false →
      evalPred db (.objectP fid cond) e = false)
  ∧ (∀ target, hasValueRow db .relation e.id fid = false →
        evalPred db (.relationP fid (.existsTo target)) e = false
      ∧ evalPred db (.relationP fid (.notExistsTo target)) e = true
      ∧ evalPred db (.relationP fid .existsAny) e = false
      ∧ evalPred db (.relationP fid .notExistsAny) e = true)
  ∧ (∀ (parseUuid : String → Option Uuid) (c : Collection) (filters : EntryFilters)
        (ob : Option EntryOrderBy) (preds : List Pred) (res : List Entry) (p : Pred),
        apply_typed_filters parseUuid
          (db.fields.filter (fun f => f.collection_id == c.id)) filters = .ok preds →
        Collection.entries parseUuid db c (some filters) ob = .ok res →
        p ∈ preds → evalPred db p e = false → e ∉ res) := by
  intro db e fid
  refine ⟨?_, ?_, ?_, ?_, ?_, ?_, ?_, ?_, ?_⟩
  · intro cond h
    simp only [hasValueRow] at h
    simp only [evalPred]
    exact any_mono_false (fun r hr => and_true_left hr) h
  · intro cond h
    simp only [hasValueRow] at h
    simp only [evalPred]
    exact any_mono_false (fun r hr => and_true_left hr) h
  · intro cond h
    simp only [hasValueRow] at h
    simp only [evalPred]
    exact any_mono_false (fun r hr => and_true_left hr) h
  · intro cond h
    simp only [hasValueRow] at h
    simp only [evalPred]
    exact any_mono_false (fun r hr => and_true_left hr) h
  · intro cond h
    simp only [hasValueRow] at h
    simp only [evalPred]
    exact any_mono_false (fun r hr => and_true_left hr) h
  · intro cond h
    simp only [hasValueRow] at h
    simp only [evalPred]
    exact any_mono_false (fun r hr => and_true_left hr) h
  · intro cond h
    simp only [hasValueRow] at h
    simp only [evalPred]
    exact any_mono_false (fun r hr => and_true_left hr) h
  · intro target h
    simp only [hasValueRow] at h
    have hto : db.relationValues.any (fun r =>
        r.from_entry_id == e.id && r.field_id == fid && r.to_entry_id == target) = false :=
      any_mono_false (fun r hr => and_true_left hr) h
    refine ⟨?_, ?_, ?_, ?_⟩
    · simpa only [evalPred] using hto
    · simp only [evalPred, hto]
      rfl
    · simpa only [evalPred] using h
    · simp only [evalPred, h]
      rfl
  · intro parseUuid c filters ob preds res p hap hres hp hev hmem
    simp only [Collection.entries, hap, Bind.bind, Except.bind, Except.ok.injEq] at hres
    rw [← hres] at hmem
    have hsel := (mem_sortEntries _ e _).mp hmem
    have hcond := (List.mem_filter.mp hsel).2
    have hall := and_true_right hcond
    have := (List.all_eq_true.mp hall) p hp
    rw [hev] at this
    cases this

/-- C1 witness: in a store with a single entry and no value rows at
all, each kind's predicate evaluates false on the entry while the
negative relation predicates evaluate true; and applying the
result-membership conjunct to the compiled Neq-style boolean filter set
shows the rowless entry is excluded there. -/
theorem c1_witness :
    evalPred dbBool (.textP 0 (.eq "x")) eW = false
  ∧ evalPred dbBool (.numberP 0 (.eq 1)) eW = false
  ∧ evalPred dbBool (.booleanP 0 (.eq true)) eW = false
  ∧ evalPred dbBool (.dateTimeP 0 (.eq "d")) eW = false
  ∧ evalPred dbBool (.textListP 0 none) eW = false
  ∧ evalPred dbBool (.numberListP 0 .isNull) eW = false
  ∧ evalPred dbBool (.objectP 0 .isNull) eW = false
  ∧ evalPred dbBool (.relationP 0 (.existsTo 9)) eW = false
  ∧ evalPred dbBool (.relationP 0 (.notExistsTo 9)) eW = true
  ∧ evalPred dbBool (.relationP 0 .existsAny) eW = false
  ∧ evalPred dbBool (.relationP 0 .notExistsAny) eW = true
  ∧ eW ∉ ([] : List Entry) := by
  obtain ⟨h1, h2, h3, h4, h5, h6, h7, h8, h9⟩ := c1_theorem dbBool eW 0
  refine ⟨h1 _ (by decide), h2 _ (by decide), h3 _ (by decide), h4 _ (by decide),
    h5 _ (by decide), h6 _ (by decide), h7 _ (by decide),
    (h8 9 (by decide)).1, (h8 9 (by decide)).2.1, (h8 9 (by decide)).2.2.1,
    (h8 9 (by decide)).2.2.2, ?_⟩
  exact h9 parseNone colW filtersBool none [.booleanP 3 (.eq true)] []
    (.booleanP 3 (.eq true)) (by decide) (by decide) (by decide) (by decide)

/-- C2 counterexample: an entry whose stored TypstText value satisfies
an Eq comparison does not match the text filter: the filter is
evaluated against the entry_text_values table, which holds no row for
the entry, so list_entries returns nothing. -/
theorem c2_counterexample :
    dbTypst.typstTextValues = [⟨1, 2, "hello", "hello"⟩]
  ∧ dbTypst.textValues = []
  ∧ evalTextCond (.eq "hello") (some "hello") = true
  ∧ Collection.entries parseT dbTypst colW (some filtersTypst) none = .ok [] :=
  ⟨rfl, rfl, by decide, by decide⟩

/-- C2 (amended): a text filter on a TypstText field compiles (to a
predicate over the Text value table, the same table used for Text
fields); the predicate's evaluation depends only on the
entry_text_values rows, never on the TypstText store; and an entry does
match whenever an entry_text_values row for the field satisfies the
comparison. -/
theorem c2_theorem : ∀ (fields : List Field) (flt : TextFilter) (f : Field),
    fields.find? (fun g => g.name == flt.field_name) = some f →
    f.data_type = .typstText →
    (∃ cond, apply_text_filter fields flt = .ok (.textP f.id cond))
  ∧ (∀ (db db' : DB) (fid : Uuid) (cond : TextCond) (e : Entry),
      db.textValues = db'.textValues →
      evalPred db (.textP fid cond) e = evalPred db' (.textP fid cond) e)
  ∧ (∀ (db : DB) (fid : Uuid) (cond : TextCond) (e : Entry) (r : EntryTextValue),
      r ∈ db.textValues → r.entry_id = e.id → r.field_id = fid →
      evalTextCond cond r.value = true →
      evalPred db (.textP fid cond) e = true) := by
  intro fields flt f hfind hdt
  refine ⟨?_, ?_, ?_⟩
  · have hval : validate_field fields flt.field_name [.text, .typstText] = .ok f := by
      simp [validate_field, hfind, hdt]
    cases hc : flt.comparison
    · exact ⟨.eq flt.value, by simp [apply_text_filter, hval, hc, Bind.bind, Except.bind]⟩
    · exact ⟨.neq flt.value, by simp [apply_text_filter, hval, hc, Bind.bind, Except.bind]⟩
    · exact ⟨.like ("%" ++ flt.value ++ "%"),
        by simp [apply_text_filter, hval, hc, Bind.bind, Except.bind]⟩
    · exact ⟨.like (flt.value ++ "%"),
        by simp [apply_text_filter, hval, hc, Bind.bind, Except.bind]⟩
    · exact ⟨.like ("%" ++ flt.value),
        by simp [apply_text_filter, hval, hc, Bind.bind, Except.bind]⟩
  · intro db db' fid cond e hdb
    simp only [evalPred, hdb]
  · intro db fid cond e r hr h1 h2 h3
    simp only [evalPred]
    exact List.any_eq_true.mpr ⟨r, hr, by simp [h1, h2, h3]⟩

/-- C2 witness: on the catalog with the TypstText field body, an Eq
text filter compiles; evaluation is invariant under replacing the
TypstText store; and a matching entry_text_values row makes the entry
match. -/
theorem c2_witness :
    (∃ cond, apply_text_filter [fTypst] ⟨"body", .eq, "hello"⟩ = .ok (.textP 2 cond))
  ∧ evalPred dbTypst (.textP 2 (.eq "hello")) eW
      = evalPred dbBool (.textP 2 (.eq "hello")) eW
  ∧ evalPred ⟨[], [eW], [fTypst], [⟨1, 2, some "hello"⟩], [], [], [], [], [], [], [], []⟩
      (.textP 2 (.eq "hello")) eW = true :=
  ⟨(c2_theorem [fTypst] ⟨"body", .eq, "hello"⟩ fTypst (by decide) rfl).1,
   (c2_theorem [fTypst] ⟨"body", .eq, "hello"⟩ fTypst (by decide) rfl).2.1
      dbTypst dbBool 2 (.eq "hello") eW rfl,
   (c2_theorem [fTypst] ⟨"body", .eq, "hello"⟩ fTypst (by decide) rfl).2.2
      ⟨[], [eW], [fTypst], [⟨1, 2, some "hello"⟩], [], [], [], [], [], [], [], []⟩
      2 (.eq "hello") eW ⟨1, 2, some "hello"⟩ (by decide) rfl rfl (by decide)⟩

/-- C3 counterexample: a list Contains filter with non-empty values on
a NumberList field does not compile to a substring predicate — it fails
with the unsupported-comparison error. -/
theorem c3_counterexample :
    apply_list_filter [fNumList] ⟨"nums", .contains, some ["1", "2"]⟩
      = .error (.unsupportedComparison
          "Complex list operations not yet implemented for number lists") := by
  decide

/-- C3 (amended): a list Contains filter with non-empty values
compiles, on a TextList field, to a substring match built from only the
first supplied element (the remaining elements impose no condition);
on a NumberList field the same filter fails with
UnsupportedComparison. -/
theorem c3_theorem : ∀ (fields : List Field) (flt : ListFilter) (f : Field)
    (v : String) (rest : List String),
    fields.find? (fun g => g.name == flt.field_name) = some f →
    flt.comparison = .contains →
    flt.values = some (v :: rest) →
    (f.data_type = .textList →
      apply_list_filter fields flt
        = .ok (.textListP f.id (some (.like ("%" ++ v ++ "%")))))
  ∧ (f.data_type = .numberList →
      apply_list_filter fields flt
        = .error (.unsupportedComparison
            "Complex list operations not yet implemented for number lists")) := by
  intro fields flt f v rest hfind hc hv
  constructor <;> intro hdt <;>
    (have hval : validate_field fields flt.field_name [.textList, .numberList] = .ok f := by
      simp [validate_field, hfind, hdt]) <;>
    simp [apply_list_filter, hval, Bind.bind, Except.bind, hdt, hc, hv]

/-- C3 witness: the same two-element value list compiles on a TextList
field to a pattern from the first element only, and errors on a
NumberList field. -/
theorem c3_witness :
    apply_list_filter [fTextList] ⟨"tags", .contains, some ["b", "z"]⟩
      = .ok (.textListP 4 (some (.like "%b%")))
  ∧ apply_list_filter [fNumList] ⟨"nums", .contains, some ["b", "z"]⟩
      = .error (.unsupportedComparison
          "Complex list operations not yet implemented for number lists") :=
  ⟨(c3_theorem [fTextList] ⟨"tags", .contains, some ["b", "z"]⟩ fTextList "b" ["z"]
      (by decide) rfl rfl).1 rfl,
   (c3_theorem [fNumList] ⟨"nums", .contains, some ["b", "z"]⟩ fNumList "b" ["z"]
      (by decide) rfl rfl).2 rfl⟩

end CollectionsQuery
